import Mathlib

/-!
Verification development for the static analysis engine of
api-performance-analyzer (Go package `analysis`): the function
AnalyzeCode and the rule functions it calls
(detectSecurityIssues, detectPerformanceIssues, detectN1QueryPatterns,
detectMissingIndexes, detectLargePayloadIssues, detectMissingCaching,
isDBCall, suggestBestPractices, generateAIRecommendations,
calculateComplexity, calculatePerformanceScore).

Modelling choices:
- The Go syntax tree is a rose tree `GoNode` carrying the node kind
  relevant to the engine (loop kinds, conditional kinds, call
  expressions with an optional selector name) and the source line of
  the node; every other node shape is `NodeKind.other`.
- The Go parser (go/parser.ParseFile) is an external capability per
  the source; it is modelled as an `Except String GoNode` argument of
  AnalyzeCode: `Except.ok tree` is a successful parse, `Except.error e`
  a parse failure with message `e`.
- `time.Now()` is modelled as an explicit `now : Nat` argument, stored
  in the AnalysisTime field and used nowhere else.
- `strings.Contains` is modelled as `strContains`, a substring search
  on the character list of the string. All patterns searched by the
  engine are ASCII, for which byte search and character search agree.
- Float64 confidence values are modelled as exact rationals; the code
  only stores them, it never computes with them.
-/

/-- Character-list version of string prefix test. -/
def startsL : List Char → List Char → Bool
  | [], _ => true
  | _ :: _, [] => false
  | a :: as, b :: bs => a == b && startsL as bs

/-- Character-list substring search. -/
def containsL : List Char → List Char → Bool
  | pat, [] => pat.isEmpty
  | pat, b :: bs => startsL pat (b :: bs) || containsL pat bs

/-- Model of Go strings.Contains(s, pat). -/
def strContains (s pat : String) : Bool :=
  containsL pat.toList s.toList

/-- The node shapes the engine distinguishes. A call expression records
whether its function position is a selector expression and, if so, the
selector name; everything else the engine never looks at is `other`. -/
inductive NodeKind where
  | forStmt
  | rangeStmt
  | ifStmt
  | switchStmt
  | typeSwitchStmt
  | callExpr (sel : Option String)
  | other
  deriving DecidableEq

/-- A Go syntax tree node: kind, source line (as reported by
fset.Position(node.Pos()).Line), and children in source order. -/
inductive GoNode where
  | mk (kind : NodeKind) (line : Nat) (children : List GoNode)

def GoNode.kind : GoNode → NodeKind
  | .mk k _ _ => k

def GoNode.line : GoNode → Nat
  | .mk _ l _ => l

def GoNode.children : GoNode → List GoNode
  | .mk _ _ cs => cs

/-- `SubNode m n` means `m` is a node of the subtree rooted at `n`
(including `n` itself); this is the spec-side notion of what
ast.Inspect visits. -/
inductive SubNode : GoNode → GoNode → Prop where
  | refl (n : GoNode) : SubNode n n
  | child {m c : GoNode} {k : NodeKind} {l : Nat} {cs : List GoNode} :
      SubNode m c → c ∈ cs → SubNode m (.mk k l cs)

/-- Induction over a rose tree with the induction hypothesis available
for every child. -/
theorem GoNode.subInduction (P : GoNode → Prop)
    (h : ∀ k l cs, (∀ c ∈ cs, P c) → P (.mk k l cs)) : ∀ n, P n
  | .mk k l cs => h k l cs (fun c hc => GoNode.subInduction P h c)
decreasing_by
  have := List.sizeOf_lt_of_mem hc
  simp only [GoNode.mk.sizeOf_spec]
  omega

/-- Go struct SecurityIssue. The Go field Type is named `Type_` here
because `Type` is a Lean keyword. -/
structure SecurityIssue where
  Type_ : String
  Description : String
  Severity : String
  LineNumber : Nat
  Suggestion : String
  deriving DecidableEq

/-- Go struct PerformanceHint. -/
structure PerformanceHint where
  Issue : String
  Impact : String
  Solution : String
  CodeExample : String
  LineNumber : Nat
  Severity : String
  deriving DecidableEq

/-- Go struct BestPractice. -/
structure BestPractice where
  Category : String
  Current : String
  Recommended : String
  Reasoning : String
  deriving DecidableEq

/-- Go struct AIRecommendation. Confidence is float64 in Go; the engine
only ever stores the literal, so an exact rational is a faithful model. -/
structure AIRecommendation where
  Type_ : String
  Confidence : Rat
  Recommendation : String
  AutoFixCode : String
  deriving DecidableEq

/-- Go struct CodeAnalysis. AnalysisTime is the `time.Now()` value,
modelled as the `now` parameter of AnalyzeCode. -/
structure CodeAnalysis where
  SecurityIssues : List SecurityIssue
  PerformanceHints : List PerformanceHint
  BestPractices : List BestPractice
  AIRecommendations : List AIRecommendation
  AnalysisTime : Nat
  CodeComplexity : Nat
  PerformanceScore : Int
  PerformanceGrade : String
  FilePath : String

/-- Conditional append used throughout: Go `if cond { xs = append(xs, x) }`. -/
def emitIf {α : Type} (b : Bool) (x : α) : List α :=
  if b then [x] else []

theorem mem_emitIf {α : Type} {a x : α} {b : Bool} :
    a ∈ emitIf b x ↔ b = true ∧ a = x := by
  cases b <;> simp [emitIf]

/-- The fixed catalogue of data-access method names from isDBCall. -/
def dbMethods : List String :=
  ["Find", "First", "Last", "Take", "Where", "Select", "Order", "Limit", "Offset",
   "Create", "Save", "Update", "UpdateColumn", "UpdateColumns", "Updates",
   "Delete", "Unscoped", "Raw", "Exec", "Scan", "Rows", "Row",
   "Count", "Group", "Having", "Joins", "Preload", "Related", "Association"]

/-- Go isDBCall: the call expression has a selector function whose
selector name is in the dbMethods catalogue. -/
def isDBCall (n : GoNode) : Bool :=
  match n with
  | .mk (.callExpr (some selName)) _ _ => dbMethods.contains selName
  | _ => false

mutual
/-- Existence of a data-access call anywhere in the subtree, the inner
ast.Inspect of detectN1QueryPatterns (short-circuit search). -/
def hasDBCall : GoNode → Bool
  | .mk k l cs => isDBCall (.mk k l cs) || hasDBCallL cs
def hasDBCallL : List GoNode → Bool
  | [] => false
  | c :: cs => hasDBCall c || hasDBCallL cs
end

/-- The critical hint emitted for a counted loop containing a
data-access call (detectN1QueryPatterns, pattern 1). -/
def forN1Hint (line : Nat) : PerformanceHint :=
  { Issue := "Potential N+1 Query Pattern"
    Impact := "🔴 CRITICAL: Could execute hundreds of database queries instead of one"
    Solution := "Use JOIN queries or eager loading to fetch related data in one query"
    Severity := "critical"
    LineNumber := line
    CodeExample := "// ❌ Bad: N+1 queries\nfor _, user := range users \x7b\n    posts := db.Where(\"user_id = ?\", user.ID).Find(&posts)\n\x7d\n\n// ✅ Good: Single query with JOIN\ndb.Preload(\"Posts\").Find(&users)" }

/-- The critical hint emitted for a range loop containing a
data-access call (detectN1QueryPatterns, pattern 2). -/
def rangeN1Hint (line : Nat) : PerformanceHint :=
  { Issue := "N+1 Query in Range Loop"
    Impact := "🔴 CRITICAL: Database call inside range loop creates N+1 queries"
    Solution := "Extract database calls outside the loop or use batch queries"
    Severity := "critical"
    LineNumber := line
    CodeExample := "// ❌ Bad: Query in range loop\nfor _, order := range orders \x7b\n    db.Model(&order).Related(&order.Items)\n\x7d\n\n// ✅ Good: Preload related data\ndb.Preload(\"Items\").Find(&orders)" }

/-- The textual GORM Related hint (detectN1QueryPatterns, pattern 3). -/
def gormRelatedHint : PerformanceHint :=
  { Issue := "GORM N+1 Query with Related()"
    Impact := "🔴 CRITICAL: Each Related() call executes a separate query"
    Solution := "Use Preload() to fetch related data efficiently"
    Severity := "critical"
    LineNumber := 0
    CodeExample := "// ❌ Bad: N+1 with Related()\nfor _, order := range orders \x7b\n    db.Model(&order).Related(&order.Items)\n\x7d\n\n// ✅ Good: Preload related data\ndb.Preload(\"Items\").Find(&orders)" }

mutual
/-- Pattern 1 of detectN1QueryPatterns: ast.Inspect over the whole tree;
for every ForStmt whose subtree contains a data-access call, append one
critical hint carrying the line of the loop. Pre-order traversal. -/
def n1ForHints : GoNode → List PerformanceHint
  | .mk k line cs =>
      emitIf ((k == NodeKind.forStmt) && hasDBCall (.mk k line cs)) (forN1Hint line)
        ++ n1ForHintsL cs
def n1ForHintsL : List GoNode → List PerformanceHint
  | [] => []
  | c :: cs => n1ForHints c ++ n1ForHintsL cs
end

mutual
/-- Pattern 2 of detectN1QueryPatterns: same traversal for RangeStmt. -/
def n1RangeHints : GoNode → List PerformanceHint
  | .mk k line cs =>
      emitIf ((k == NodeKind.rangeStmt) && hasDBCall (.mk k line cs)) (rangeN1Hint line)
        ++ n1RangeHintsL cs
def n1RangeHintsL : List GoNode → List PerformanceHint
  | [] => []
  | c :: cs => n1RangeHints c ++ n1RangeHintsL cs
end

/-- Go detectN1QueryPatterns: the two structural passes followed by the
purely textual GORM Related check. -/
def detectN1QueryPatterns (node : GoNode) (code : String) : List PerformanceHint :=
  n1ForHints node ++ n1RangeHints node ++
    emitIf (strContains code "for" && strContains code ".Related(") gormRelatedHint

/-- The WHERE-clause patterns of detectMissingIndexes. -/
def wherePatterns : List String :=
  ["WHERE name", "WHERE email", "WHERE status", "WHERE created_at",
   "LIKE \x27%", ".Where(\"name", ".Where(\"email", ".Where(\"status"]

/-- The single hint of detectMissingIndexes. -/
def missingIndexHint : PerformanceHint :=
  { Issue := "Potential Missing Database Index"
    Impact := "🟠 HIGH: Query will scan entire table without proper index"
    Solution := "Add database index on frequently queried columns"
    Severity := "high"
    LineNumber := 0
    CodeExample := "-- Add these indexes to your migration:\nCREATE INDEX idx_users_email ON users(email);\nCREATE INDEX idx_posts_status ON posts(status);\nCREATE INDEX idx_orders_created_at ON orders(created_at);\n\n-- For GORM, add to your struct:\ntype User struct \x7b\n    Email string `gorm:\"index\"`\n\x7d" }

/-- Go detectMissingIndexes: fires once (the Go loop breaks after the
first matching pattern; every match emits the same hint). -/
def detectMissingIndexes (_node : GoNode) (code : String) : List PerformanceHint :=
  emitIf (wherePatterns.any (fun pattern => strContains code pattern)) missingIndexHint

def largePayloadHint : PerformanceHint :=
  { Issue := "Large Dataset Response Without Pagination"
    Impact := "🟠 HIGH: Returning large datasets will cause slow responses and high memory usage"
    Solution := "Implement pagination for large data responses"
    Severity := "high"
    LineNumber := 0
    CodeExample := "// ❌ Bad: Return all records\nvar users []User\ndb.Find(&users)\nc.JSON(200, users)\n\n// ✅ Good: Paginated response\npage, _ := strconv.Atoi(c.DefaultQuery(\"page\", \"1\"))\nlimit, _ := strconv.Atoi(c.DefaultQuery(\"limit\", \"20\"))\noffset := (page - 1) * limit\n\nvar users []User\nvar total int64\ndb.Model(&User\x7b\x7d).Count(&total)\ndb.Offset(offset).Limit(limit).Find(&users)\n\nc.JSON(200, gin.H\x7b\n    \"data\": users, \n    \"page\": page,\n    \"total\": total,\n    \"pages\": (total + int64(limit) - 1) / int64(limit),\n\x7d)" }

/-- Go detectLargePayloadIssues. -/
def detectLargePayloadIssues (_node : GoNode) (code : String) : List PerformanceHint :=
  emitIf ((strContains code "c.JSON" || strContains code "json.Marshal") &&
          (strContains code ".Find(&" || strContains code "SELECT *") &&
          !strContains code "Limit" && !strContains code "LIMIT") largePayloadHint

/-- The expensive-operation tokens of detectMissingCaching. -/
def expensiveOperations : List String :=
  ["calculateReport", "generateStats", "getAggregated",
   "COUNT(", "SUM(", "AVG(", "GROUP BY", "ORDER BY"]

def missingCachingHint : PerformanceHint :=
  { Issue := "Expensive Operation Without Caching"
    Impact := "🟡 MEDIUM: Repeated expensive calculations will slow down your API"
    Solution := "Cache expensive operation results with Redis or in-memory cache"
    Severity := "medium"
    LineNumber := 0
    CodeExample := "// Add caching for expensive operations\nfunc getExpensiveReport(c *gin.Context) \x7b\n    cacheKey := \"report_\" + c.Query(\"type\")\n    \n    // Check cache first\n    if cached, exists := cache.Get(cacheKey); exists \x7b\n        c.JSON(200, cached)\n        return\n    \x7d\n    \n    // Calculate only if not cached\n    result := calculateExpensiveReport()\n    cache.Set(cacheKey, result, 5*time.Minute)\n    c.JSON(200, result)\n\x7d\n\n// Or use middleware caching\nrouter.GET(\"/reports\", cache.CachePage(store, time.Minute*5, getReports))" }

/-- Go detectMissingCaching: fires once, at the first expensive token
present while no caching keyword is present. -/
def detectMissingCaching (_node : GoNode) (code : String) : List PerformanceHint :=
  emitIf (expensiveOperations.any (fun op =>
    strContains code op && !strContains code "cache" && !strContains code "Cache"))
    missingCachingHint

def inMemoryStorageHint : PerformanceHint :=
  { Issue := "In-memory data storage"
    Impact := "🟡 MEDIUM: Data lost on restart, not scalable, memory leaks"
    Solution := "Implement database persistence (PostgreSQL, MongoDB, etc.)"
    Severity := "medium"
    LineNumber := 0
    CodeExample := "// Use database instead\nimport \"database/sql\"\ndb, err := sql.Open(\"postgres\", connectionString)\n// Store albums in database table" }

def connectionPoolingHint : PerformanceHint :=
  { Issue := "No database connection pooling"
    Impact := "🟠 HIGH: Resource exhaustion, poor scalability"
    Solution := "Configure connection pool settings"
    Severity := "high"
    LineNumber := 0
    CodeExample := "db.SetMaxOpenConns(25)\ndb.SetMaxIdleConns(25)\ndb.SetConnMaxLifetime(5 * time.Minute)" }

/-- Go detectPerformanceIssues: the four dedicated detectors followed by
the in-memory storage and connection pooling checks. -/
def detectPerformanceIssues (node : GoNode) (code : String) : List PerformanceHint :=
  detectN1QueryPatterns node code ++
  detectMissingIndexes node code ++
  detectLargePayloadIssues node code ++
  detectMissingCaching node code ++
  emitIf (strContains code "var albums = []" || strContains code "albums = append(")
    inMemoryStorageHint ++
  emitIf (strContains code "sql.Open" && !strContains code "SetMaxOpenConns")
    connectionPoolingHint

def missingCorsIssue : SecurityIssue :=
  { Type_ := "missing_cors"
    Description := "No CORS middleware detected - this can cause browser security issues"
    Severity := "medium"
    LineNumber := 0
    Suggestion := "Add CORS middleware: router.Use(cors.Default())" }

def insufficientErrorHandlingIssue : SecurityIssue :=
  { Type_ := "insufficient_error_handling"
    Description := "JSON binding without proper error responses"
    Severity := "medium"
    LineNumber := 0
    Suggestion := "Return proper HTTP error codes for invalid JSON" }

def hardcodedSecretsIssue : SecurityIssue :=
  { Type_ := "potential_hardcoded_secrets"
    Description := "Potential hardcoded secrets detected"
    Severity := "high"
    LineNumber := 0
    Suggestion := "Use environment variables for sensitive data" }

def sqlInjectionIssue : SecurityIssue :=
  { Type_ := "sql_injection_risk"
    Description := "Raw SQL queries detected - potential injection risk"
    Severity := "high"
    LineNumber := 0
    Suggestion := "Use parameterized queries or ORM with proper escaping" }

/-- The synthetic finding produced on a parse failure with message `e`. -/
def syntaxErrorIssue (e : String) : SecurityIssue :=
  { Type_ := "syntax_error"
    Description := "Code contains syntax errors"
    Severity := "high"
    LineNumber := 0
    Suggestion := "Fix syntax errors before analysis: " ++ e }

/-- Go detectSecurityIssues: four independent lexical checks over the
raw text (the tree argument is received but never used). -/
def detectSecurityIssues (_node : GoNode) (code : String) : List SecurityIssue :=
  emitIf (!strContains code "cors" && !strContains code "CORS") missingCorsIssue ++
  emitIf (strContains code "BindJSON" && !strContains code "StatusBadRequest")
    insufficientErrorHandlingIssue ++
  emitIf (strContains code "password" || strContains code "secret" ||
          strContains code "token") hardcodedSecretsIssue ++
  emitIf ((strContains code "SELECT" || strContains code "INSERT" ||
           strContains code "UPDATE" || strContains code "DELETE") &&
          !strContains code "Prepare" && !strContains code "?") sqlInjectionIssue

def errorHandlingPractice : BestPractice :=
  { Category := "Error Handling"
    Current := "Basic error handling"
    Recommended := "Structured error responses with proper HTTP status codes"
    Reasoning := "Better client experience, easier debugging, API consistency" }

def requestValidationPractice : BestPractice :=
  { Category := "Request Validation"
    Current := "No input validation middleware"
    Recommended := "Add request validation and sanitization"
    Reasoning := "Prevent invalid data, improve security, reduce debugging time" }

def loggingPractice : BestPractice :=
  { Category := "Logging"
    Current := "No structured logging"
    Recommended := "Add request/response logging with correlation IDs"
    Reasoning := "Essential for debugging production issues and monitoring" }

def configurationPractice : BestPractice :=
  { Category := "Configuration"
    Current := "Hardcoded port and host"
    Recommended := "Use environment variables for configuration"
    Reasoning := "Enables different environments (dev, staging, prod)" }

/-- Go suggestBestPractices: the Error Handling entry is appended
unconditionally, the other three depend on the text. -/
def suggestBestPractices (_node : GoNode) (code : String) : List BestPractice :=
  [errorHandlingPractice] ++
  emitIf (!strContains code "middleware") requestValidationPractice ++
  emitIf (!strContains code "Logger") loggingPractice ++
  emitIf (strContains code "Run(\"localhost:8080\")") configurationPractice

def repositoryPatternRec : AIRecommendation :=
  { Type_ := "architecture"
    Confidence := 0.85
    Recommendation := "Consider implementing repository pattern for cleaner data access"
    AutoFixCode := "type AlbumRepository interface \x7b\n    GetAll(ctx context.Context) ([]Album, error)\n    GetByID(ctx context.Context, id string) (*Album, error)\n    Create(ctx context.Context, album Album) error\n    Update(ctx context.Context, album Album) error\n    Delete(ctx context.Context, id string) error\n\x7d" }

def middlewareRec : AIRecommendation :=
  { Type_ := "middleware"
    Confidence := 0.92
    Recommendation := "Add essential middleware for production readiness"
    AutoFixCode := "router.Use(gin.Logger())\nrouter.Use(gin.Recovery())\nrouter.Use(cors.Default())\nrouter.Use(rateLimitMiddleware())" }

def apiVersioningRec : AIRecommendation :=
  { Type_ := "api_design"
    Confidence := 0.78
    Recommendation := "Add API versioning for future compatibility"
    AutoFixCode := "v1 := router.Group(\"/api/v1\")\n\x7b\n    v1.GET(\"/albums\", getAlbums)\n    v1.POST(\"/albums\", postAlbums)\n    v1.GET(\"/albums/:id\", getAlbumByID)\n\x7d" }

def testingRec : AIRecommendation :=
  { Type_ := "testing"
    Confidence := 0.88
    Recommendation := "Add unit tests for better code reliability"
    AutoFixCode := "func TestGetAlbums(t *testing.T) \x7b\n    router := setupRouter()\n    w := httptest.NewRecorder()\n    req, _ := http.NewRequest(\"GET\", \"/albums\", nil)\n    router.ServeHTTP(w, req)\n    assert.Equal(t, 200, w.Code)\n\x7d" }

/-- Go generateAIRecommendations: four text-presence checks; the
codeType (dialect hint) parameter is received but never read. -/
def generateAIRecommendations (code _codeType : String) : List AIRecommendation :=
  emitIf (strContains code "func get" && strContains code "func post") repositoryPatternRec ++
  emitIf (!strContains code "Recovery()") middlewareRec ++
  emitIf (!strContains code "/v1/" && !strContains code "/api/v") apiVersioningRec ++
  emitIf (!strContains code "_test.go") testingRec

/-- The node kinds counted by calculateComplexity. -/
def isControlFlowKind : NodeKind → Bool
  | .ifStmt => true
  | .forStmt => true
  | .rangeStmt => true
  | .switchStmt => true
  | .typeSwitchStmt => true
  | _ => false

mutual
/-- Go calculateComplexity: one full traversal counting control-flow
nodes, no weighting. -/
def calculateComplexity : GoNode → Nat
  | .mk k _ cs => (if isControlFlowKind k then 1 else 0) + complexityL cs
def complexityL : List GoNode → Nat
  | [] => 0
  | c :: cs => calculateComplexity c + complexityL cs
end

/-- The severity weight subtracted per performance finding by
calculatePerformanceScore (default case of the Go switch is 0). -/
def severityWeight (severity : String) : Int :=
  if severity = "critical" then 25
  else if severity = "high" then 15
  else if severity = "medium" then 10
  else if severity = "low" then 5
  else 0

/-- The score accumulation loop of calculatePerformanceScore. -/
def rawScore (hints : List PerformanceHint) : Int :=
  hints.foldl (fun score hint => score - severityWeight hint.Severity) 100

/-- The clamp `if score < 0 \x7b score = 0 \x7d`. -/
def clampScore (score : Int) : Int :=
  if score < 0 then 0 else score

/-- The grade switch of calculatePerformanceScore: inclusive lower
bounds 95/90/80/70/60, else F. -/
def gradeFor (score : Int) : String :=
  if score ≥ 95 then "A+"
  else if score ≥ 90 then "A"
  else if score ≥ 80 then "B"
  else if score ≥ 70 then "C"
  else if score ≥ 60 then "D"
  else "F"

/-- Go calculatePerformanceScore: start at 100, subtract severity
weights, clamp at 0, grade by bands. -/
def calculatePerformanceScore (hints : List PerformanceHint) : Int × String :=
  (clampScore (rawScore hints), gradeFor (clampScore (rawScore hints)))

/-- Go AnalyzeCode. `now` models time.Now(); `parsed` models the result
of parser.ParseFile on (code, filePath). On a parse failure the function
returns the zero-value analysis extended with the single syntax_error
finding; on success it runs every rule family and the scoring step. -/
def AnalyzeCode (now : Nat) (parsed : Except String GoNode)
    (code codeType filePath : String) : CodeAnalysis :=
  match parsed with
  | .error err =>
      { SecurityIssues := [syntaxErrorIssue err]
        PerformanceHints := []
        BestPractices := []
        AIRecommendations := []
        AnalysisTime := now
        CodeComplexity := 0
        PerformanceScore := 0
        PerformanceGrade := ""
        FilePath := filePath }
  | .ok node =>
      let sg := calculatePerformanceScore (detectPerformanceIssues node code)
      { SecurityIssues := detectSecurityIssues node code
        PerformanceHints := detectPerformanceIssues node code
        BestPractices := suggestBestPractices node code
        AIRecommendations := generateAIRecommendations code codeType
        AnalysisTime := now
        CodeComplexity := calculateComplexity node
        PerformanceScore := sg.1
        PerformanceGrade := sg.2
        FilePath := filePath }

/-- Source text of the empty-file test input. -/
def emptyCode : String := ""

/-- The tree a successful parse of the empty text would yield: a file
node with no declarations (the real Go parser in fact rejects empty
input with a syntax error; both outcomes are covered below). -/
def emptyGoFile : GoNode := .mk .other 1 []

/-- Source text of the hello-world test input (simple print statement,
no loops, no DML keywords, no flagged literals). -/
def helloCode : String :=
  "package main\n\nimport \"fmt\"\n\nfunc main() \x7b\n\tfmt.Println(\"Hello, World!\")\n\x7d"

/-- Parse tree of helloCode, keeping the kinds the engine inspects:
an import declaration, the main function declaration, its body block,
and the fmt.Println call (selector name Println) with its argument. -/
def helloTree : GoNode :=
  .mk .other 1
    [.mk .other 3 [],
     .mk .other 5
       [.mk .other 5
         [.mk .other 6
           [.mk (.callExpr (some "Println")) 6 [.mk .other 6 []]]]]]

/-- Source text of a file whose body is a range loop containing one
data-access call (db.Find). -/
def rangeExampleCode : String :=
  "package main\n\nfunc load(db DB, users []User) \x7b\n\tfor _, u := range users \x7b\n\t\tdb.Find(u)\n\t\x7d\n\x7d"

/-- The db.Find(u) call at line 5 (selector name Find, one argument). -/
def rangeExampleCall : GoNode := .mk (.callExpr (some "Find")) 5 [.mk .other 5 []]

/-- The expression statement wrapping the call. -/
def rangeExampleStmt : GoNode := .mk .other 5 [rangeExampleCall]

/-- The loop body block. -/
def rangeExampleBlock : GoNode := .mk .other 4 [rangeExampleStmt]

/-- The range loop at line 4: key, value, and body children. -/
def rangeExampleLoop : GoNode :=
  .mk .rangeStmt 4 [.mk .other 4 [], .mk .other 4 [], rangeExampleBlock]

/-- The function declaration containing the loop. -/
def rangeExampleFunc : GoNode := .mk .other 3 [rangeExampleLoop]

/-- Parse tree of rangeExampleCode. -/
def rangeExampleTree : GoNode := .mk .other 1 [rangeExampleFunc]

theorem hasDBCallL_iff (cs : List GoNode) :
    hasDBCallL cs = true ↔ ∃ c ∈ cs, hasDBCall c = true := by
  induction cs with
  | nil => simp [hasDBCallL]
  | cons x xs ih => simp [hasDBCallL, Bool.or_eq_true, ih]

/-- The short-circuit subtree search of detectN1QueryPatterns finds a
data-access call exactly when some node of the subtree is one. -/
theorem hasDBCall_iff (n : GoNode) :
    hasDBCall n = true ↔ ∃ m, SubNode m n ∧ isDBCall m = true := by
  induction n using GoNode.subInduction with
  | h k l cs ih =>
    constructor
    · intro hdb
      rw [hasDBCall] at hdb
      simp only [Bool.or_eq_true] at hdb
      rcases hdb with hself | hrest
      · exact ⟨.mk k l cs, SubNode.refl _, hself⟩
      · obtain ⟨c, hc, hdbc⟩ := (hasDBCallL_iff cs).mp hrest
        obtain ⟨m, hsub, hm⟩ := (ih c hc).mp hdbc
        exact ⟨m, SubNode.child hsub hc, hm⟩
    · rintro ⟨m, hsub, hm⟩
      rw [hasDBCall]
      simp only [Bool.or_eq_true]
      cases hsub with
      | refl => exact Or.inl hm
      | child hsub2 hc =>
        rename_i c
        exact Or.inr ((hasDBCallL_iff cs).mpr ⟨c, hc, (ih c hc).mpr ⟨m, hsub2, hm⟩⟩)

theorem mem_n1ForHintsL {h : PerformanceHint} {cs : List GoNode} :
    h ∈ n1ForHintsL cs ↔ ∃ c ∈ cs, h ∈ n1ForHints c := by
  induction cs with
  | nil => simp [n1ForHintsL]
  | cons x xs ih => simp [n1ForHintsL, ih]

theorem mem_n1RangeHintsL {h : PerformanceHint} {cs : List GoNode} :
    h ∈ n1RangeHintsL cs ↔ ∃ c ∈ cs, h ∈ n1RangeHints c := by
  induction cs with
  | nil => simp [n1RangeHintsL]
  | cons x xs ih => simp [n1RangeHintsL, ih]

/-- Every ForStmt node of the tree whose subtree contains a data-access
call contributes its hint to pattern 1 of detectN1QueryPatterns. -/
theorem forN1Hint_mem {n tree : GoNode} (hsub : SubNode n tree)
    (hk : n.kind = NodeKind.forStmt) (hdb : hasDBCall n = true) :
    forN1Hint n.line ∈ n1ForHints tree := by
  induction hsub with
  | refl =>
    rcases n with ⟨k, l, cs⟩
    simp only [GoNode.kind] at hk
    subst hk
    simp only [GoNode.line]
    rw [n1ForHints]
    refine List.mem_append_left _ ?_
    rw [mem_emitIf]
    exact ⟨by simp [hdb], rfl⟩
  | child hsub2 hc ih =>
    rw [n1ForHints]
    refine List.mem_append_right _ ?_
    exact mem_n1ForHintsL.mpr ⟨_, hc, ih⟩

/-- Every RangeStmt node of the tree whose subtree contains a
data-access call contributes its hint to pattern 2. -/
theorem rangeN1Hint_mem {n tree : GoNode} (hsub : SubNode n tree)
    (hk : n.kind = NodeKind.rangeStmt) (hdb : hasDBCall n = true) :
    rangeN1Hint n.line ∈ n1RangeHints tree := by
  induction hsub with
  | refl =>
    rcases n with ⟨k, l, cs⟩
    simp only [GoNode.kind] at hk
    subst hk
    simp only [GoNode.line]
    rw [n1RangeHints]
    refine List.mem_append_left _ ?_
    rw [mem_emitIf]
    exact ⟨by simp [hdb], rfl⟩
  | child hsub2 hc ih =>
    rw [n1RangeHints]
    refine List.mem_append_right _ ?_
    exact mem_n1RangeHintsL.mpr ⟨_, hc, ih⟩

/-- Every pattern-1 hint is the critical for-loop hint. -/
theorem n1ForHints_shape (tree : GoNode) :
    ∀ h ∈ n1ForHints tree, ∃ l, h = forN1Hint l := by
  induction tree using GoNode.subInduction with
  | h k l cs ih =>
    intro h hm
    rw [n1ForHints] at hm
    rcases List.mem_append.mp hm with h1 | h2
    · obtain ⟨-, rfl⟩ := mem_emitIf.mp h1
      exact ⟨l, rfl⟩
    · obtain ⟨c, hc, hmc⟩ := mem_n1ForHintsL.mp h2
      exact ih c hc h hmc

/-- Every pattern-2 hint is the critical range-loop hint. -/
theorem n1RangeHints_shape (tree : GoNode) :
    ∀ h ∈ n1RangeHints tree, ∃ l, h = rangeN1Hint l := by
  induction tree using GoNode.subInduction with
  | h k l cs ih =>
    intro h hm
    rw [n1RangeHints] at hm
    rcases List.mem_append.mp hm with h1 | h2
    · obtain ⟨-, rfl⟩ := mem_emitIf.mp h1
      exact ⟨l, rfl⟩
    · obtain ⟨c, hc, hmc⟩ := mem_n1RangeHintsL.mp h2
      exact ih c hc h hmc

/-- Every performance finding the engine can emit carries one of the
four weighted severities. -/
theorem detectPerformanceIssues_severities (tree : GoNode) (code : String) :
    ∀ h ∈ detectPerformanceIssues tree code,
      h.Severity = "critical" ∨ h.Severity = "high" ∨
      h.Severity = "medium" ∨ h.Severity = "low" := by
  intro h hm
  unfold detectPerformanceIssues detectN1QueryPatterns at hm
  simp only [List.append_assoc, List.mem_append] at hm
  rcases hm with h1 | h2 | h3 | h4 | h5 | h6 | h7 | h8
  · obtain ⟨l, rfl⟩ := n1ForHints_shape tree h h1
    exact Or.inl rfl
  · obtain ⟨l, rfl⟩ := n1RangeHints_shape tree h h2
    exact Or.inl rfl
  · obtain ⟨-, rfl⟩ := mem_emitIf.mp h3
    exact Or.inl rfl
  · obtain ⟨-, rfl⟩ := mem_emitIf.mp h4
    exact Or.inr (Or.inl rfl)
  · obtain ⟨-, rfl⟩ := mem_emitIf.mp h5
    exact Or.inr (Or.inl rfl)
  · obtain ⟨-, rfl⟩ := mem_emitIf.mp h6
    exact Or.inr (Or.inr (Or.inl rfl))
  · obtain ⟨-, rfl⟩ := mem_emitIf.mp h7
    exact Or.inr (Or.inr (Or.inl rfl))
  · obtain ⟨-, rfl⟩ := mem_emitIf.mp h8
    exact Or.inr (Or.inl rfl)

/-- Spec-side severity weight sum over a list of findings. -/
def severityWeightSum (hints : List PerformanceHint) : Int :=
  (hints.map (fun h => severityWeight h.Severity)).sum

theorem rawScore_foldl (hints : List PerformanceHint) : ∀ init : Int,
    hints.foldl (fun score hint => score - severityWeight hint.Severity) init
      = init - severityWeightSum hints := by
  induction hints with
  | nil => intro init; simp [severityWeightSum]
  | cons x xs ih =>
    intro init
    simp only [List.foldl_cons, severityWeightSum, List.map_cons, List.sum_cons] at *
    rw [ih]
    omega

theorem rawScore_eq (hints : List PerformanceHint) :
    rawScore hints = 100 - severityWeightSum hints :=
  rawScore_foldl hints 100

theorem severityWeight_nonneg (s : String) : 0 ≤ severityWeight s := by
  unfold severityWeight
  repeat' split
  all_goals norm_num

theorem severityWeightSum_nonneg (hints : List PerformanceHint) :
    0 ≤ severityWeightSum hints := by
  induction hints with
  | nil => simp [severityWeightSum]
  | cons x xs ih =>
    have := severityWeight_nonneg x.Severity
    simp only [severityWeightSum, List.map_cons, List.sum_cons] at *
    omega

theorem clampScore_eq_max (s : Int) : clampScore s = max 0 s := by
  unfold clampScore
  rcases le_or_lt 0 s with h | h
  · rw [if_neg (not_lt.mpr h), max_eq_right h]
  · rw [if_pos h, max_eq_left h.le]

theorem clampScore_nonneg (s : Int) : 0 ≤ clampScore s := by
  rw [clampScore_eq_max]; exact le_max_left 0 s

theorem clampScore_le (s : Int) (h : s ≤ 100) : clampScore s ≤ 100 := by
  rw [clampScore_eq_max]
  exact max_le (by norm_num) h

theorem gradeFor_mem (s : Int) :
    gradeFor s ∈ (["A+", "A", "B", "C", "D", "F"] : List String) := by
  unfold gradeFor
  repeat' split
  all_goals decide

/-- Claim C1: for every successfully parsed input, the quality score
equals 100 minus the sum of the severity weights of the performance
findings (critical 25, high 15, medium 10, low 5), clamped below at 0;
the grade comes from the inclusive lower-bound bands on that score; and
every performance finding carries one of the four weighted severities,
so security findings, advisories and recommendations never change the
score (the score is a function of the performance findings alone). -/
theorem claim1_scoring (t : Nat) (tree : GoNode) (code codeType filePath : String) :
    (AnalyzeCode t (Except.ok tree) code codeType filePath).PerformanceScore
      = max 0 (100 - severityWeightSum
          (AnalyzeCode t (Except.ok tree) code codeType filePath).PerformanceHints)
  ∧ (AnalyzeCode t (Except.ok tree) code codeType filePath).PerformanceGrade
      = gradeFor (AnalyzeCode t (Except.ok tree) code codeType filePath).PerformanceScore
  ∧ ∀ h ∈ (AnalyzeCode t (Except.ok tree) code codeType filePath).PerformanceHints,
      h.Severity = "critical" ∨ h.Severity = "high" ∨
      h.Severity = "medium" ∨ h.Severity = "low" := by
  refine ⟨?_, rfl, ?_⟩
  · show clampScore (rawScore (detectPerformanceIssues tree code))
        = max 0 (100 - severityWeightSum (detectPerformanceIssues tree code))
    rw [clampScore_eq_max, rawScore_eq]
  · exact detectPerformanceIssues_severities tree code

/-- Witness for claim C1 at a concrete input with a nonempty
performance-finding list. -/
theorem claim1_scoring_witness :
    (rangeN1Hint 4).Severity = "critical" ∨ (rangeN1Hint 4).Severity = "high" ∨
    (rangeN1Hint 4).Severity = "medium" ∨ (rangeN1Hint 4).Severity = "low" := by
  have H := claim1_scoring 0 rangeExampleTree rangeExampleCode "go" "witness.go"
  refine H.2.2 (rangeN1Hint 4) ?_
  have e : (AnalyzeCode 0 (Except.ok rangeExampleTree) rangeExampleCode "go" "witness.go").PerformanceHints
      = [rangeN1Hint 4] := rfl
  rw [e]
  exact List.mem_singleton_self _

/-- Claim C2: on a parse failure the result holds exactly one security
finding of category syntax_error and severity high, all other finding
lists are empty, and complexity, score and grade keep their zero-value
defaults (0, 0 and the empty string) instead of being computed. -/
theorem claim2_parse_failure (t : Nat) (errMsg code codeType filePath : String) :
    (AnalyzeCode t (Except.error errMsg) code codeType filePath).SecurityIssues
        = [syntaxErrorIssue errMsg]
  ∧ (syntaxErrorIssue errMsg).Type_ = "syntax_error"
  ∧ (syntaxErrorIssue errMsg).Severity = "high"
  ∧ (AnalyzeCode t (Except.error errMsg) code codeType filePath).PerformanceHints = []
  ∧ (AnalyzeCode t (Except.error errMsg) code codeType filePath).BestPractices = []
  ∧ (AnalyzeCode t (Except.error errMsg) code codeType filePath).AIRecommendations = []
  ∧ (AnalyzeCode t (Except.error errMsg) code codeType filePath).CodeComplexity = 0
  ∧ (AnalyzeCode t (Except.error errMsg) code codeType filePath).PerformanceScore = 0
  ∧ (AnalyzeCode t (Except.error errMsg) code codeType filePath).PerformanceGrade = "" :=
  ⟨rfl, rfl, rfl, rfl, rfl, rfl, rfl, rfl, rfl⟩

/-- Counterexample to claim C3 as stated: on the parse-failure path the
returned grade is the empty string, which is not one of the six grade
band labels, so the grade invariant does not hold for every input. -/
theorem claim3_counterexample :
    (AnalyzeCode 0 (Except.error "1:1: expected declaration, found this")
        "this is not valid code" "go" "invalid.go").PerformanceGrade = ""
  ∧ "" ∉ (["A+", "A", "B", "C", "D", "F"] : List String) :=
  ⟨rfl, by decide⟩

/-- Claim C3 as amended: for every successfully parsed input the score
is an integer in [0,100] and the grade is the band label of that score,
hence one of the six labels; on a parse failure the score is 0 (still in
range) but the grade is the empty string, not a band label. -/
theorem claim3_amended (t : Nat) (tree : GoNode) (errMsg code codeType filePath : String) :
    (0 ≤ (AnalyzeCode t (Except.ok tree) code codeType filePath).PerformanceScore
      ∧ (AnalyzeCode t (Except.ok tree) code codeType filePath).PerformanceScore ≤ 100
      ∧ (AnalyzeCode t (Except.ok tree) code codeType filePath).PerformanceGrade
          = gradeFor (AnalyzeCode t (Except.ok tree) code codeType filePath).PerformanceScore
      ∧ (AnalyzeCode t (Except.ok tree) code codeType filePath).PerformanceGrade
          ∈ (["A+", "A", "B", "C", "D", "F"] : List String))
  ∧ ((AnalyzeCode t (Except.error errMsg) code codeType filePath).PerformanceScore = 0
      ∧ (AnalyzeCode t (Except.error errMsg) code codeType filePath).PerformanceGrade = "") := by
  refine ⟨⟨?_, ?_, rfl, ?_⟩, rfl, rfl⟩
  · show 0 ≤ clampScore (rawScore (detectPerformanceIssues tree code))
    exact clampScore_nonneg _
  · show clampScore (rawScore (detectPerformanceIssues tree code)) ≤ 100
    refine clampScore_le _ ?_
    rw [rawScore_eq]
    have := severityWeightSum_nonneg (detectPerformanceIssues tree code)
    omega
  · show gradeFor (clampScore (rawScore (detectPerformanceIssues tree code))) ∈ _
    exact gradeFor_mem _

/-- Counterexample to claim C4 as stated: for the empty input text the
result does not have zero findings and score 100. The Go parser rejects
empty input, which yields one syntax_error finding and score 0; and even
a hypothetical successful parse of the empty text would yield a
missing-CORS security finding because the text contains no CORS marker. -/
theorem claim4_counterexample :
    (AnalyzeCode 0 (Except.error "1:1: expected \x27package\x27, found \x27EOF\x27")
        emptyCode "go" "empty.go").PerformanceScore ≠ 100
  ∧ (AnalyzeCode 0 (Except.error "1:1: expected \x27package\x27, found \x27EOF\x27")
        emptyCode "go" "empty.go").SecurityIssues ≠ []
  ∧ (AnalyzeCode 0 (Except.ok emptyGoFile) emptyCode "go" "empty.go").SecurityIssues ≠ [] :=
  ⟨by decide, by decide, by decide⟩

/-- Claim C4 as amended: for the empty input text, with any dialect hint
and any path: on the actual parse failure the result is the single
syntax_error finding with complexity 0, score 0 and empty grade; had the
parse succeeded with an empty file node, the result would carry a
missing-CORS security finding, three advisories and three
recommendations, with no performance findings, complexity 0, score 100
and grade A+. -/
theorem claim4_amended (t : Nat) (errMsg codeType filePath : String) :
    ((AnalyzeCode t (Except.error errMsg) emptyCode codeType filePath).SecurityIssues
        = [syntaxErrorIssue errMsg]
      ∧ (AnalyzeCode t (Except.error errMsg) emptyCode codeType filePath).PerformanceHints = []
      ∧ (AnalyzeCode t (Except.error errMsg) emptyCode codeType filePath).BestPractices = []
      ∧ (AnalyzeCode t (Except.error errMsg) emptyCode codeType filePath).AIRecommendations = []
      ∧ (AnalyzeCode t (Except.error errMsg) emptyCode codeType filePath).CodeComplexity = 0
      ∧ (AnalyzeCode t (Except.error errMsg) emptyCode codeType filePath).PerformanceScore = 0
      ∧ (AnalyzeCode t (Except.error errMsg) emptyCode codeType filePath).PerformanceGrade = "")
  ∧ ((AnalyzeCode t (Except.ok emptyGoFile) emptyCode codeType filePath).SecurityIssues
        = [missingCorsIssue]
      ∧ (AnalyzeCode t (Except.ok emptyGoFile) emptyCode codeType filePath).PerformanceHints = []
      ∧ (AnalyzeCode t (Except.ok emptyGoFile) emptyCode codeType filePath).BestPractices
          = [errorHandlingPractice, requestValidationPractice, loggingPractice]
      ∧ (AnalyzeCode t (Except.ok emptyGoFile) emptyCode codeType filePath).AIRecommendations
          = [middlewareRec, apiVersioningRec, testingRec]
      ∧ (AnalyzeCode t (Except.ok emptyGoFile) emptyCode codeType filePath).CodeComplexity = 0
      ∧ (AnalyzeCode t (Except.ok emptyGoFile) emptyCode codeType filePath).PerformanceScore = 100
      ∧ (AnalyzeCode t (Except.ok emptyGoFile) emptyCode codeType filePath).PerformanceGrade = "A+") :=
  ⟨⟨rfl, rfl, rfl, rfl, rfl, rfl, rfl⟩, ⟨rfl, rfl, rfl, rfl, rfl, rfl, rfl⟩⟩

/-- Counterexample to claim C5 as stated: the hello-world file with a
single print statement does not get zero findings in every category —
its security, advisory and recommendation lists are all non-empty. -/
theorem claim5_counterexample :
    (AnalyzeCode 0 (Except.ok helloTree) helloCode "go" "main.go").SecurityIssues ≠ []
  ∧ (AnalyzeCode 0 (Except.ok helloTree) helloCode "go" "main.go").BestPractices ≠ []
  ∧ (AnalyzeCode 0 (Except.ok helloTree) helloCode "go" "main.go").AIRecommendations ≠ [] :=
  ⟨by decide, by decide, by decide⟩

/-- Claim C5 as amended: the simple print-statement file yields zero
performance findings and score 100 (grade A+, complexity 0), but it
still receives the missing-CORS security finding, the three advisory
entries and the three text-based recommendations. -/
theorem claim5_amended (t : Nat) (codeType filePath : String) :
    (AnalyzeCode t (Except.ok helloTree) helloCode codeType filePath).PerformanceHints = []
  ∧ (AnalyzeCode t (Except.ok helloTree) helloCode codeType filePath).PerformanceScore = 100
  ∧ (AnalyzeCode t (Except.ok helloTree) helloCode codeType filePath).PerformanceGrade = "A+"
  ∧ (AnalyzeCode t (Except.ok helloTree) helloCode codeType filePath).CodeComplexity = 0
  ∧ (AnalyzeCode t (Except.ok helloTree) helloCode codeType filePath).SecurityIssues
      = [missingCorsIssue]
  ∧ (AnalyzeCode t (Except.ok helloTree) helloCode codeType filePath).BestPractices
      = [errorHandlingPractice, requestValidationPractice, loggingPractice]
  ∧ (AnalyzeCode t (Except.ok helloTree) helloCode codeType filePath).AIRecommendations
      = [middlewareRec, apiVersioningRec, testingRec] :=
  ⟨rfl, rfl, rfl, rfl, rfl, rfl, rfl⟩

/-- Claim C6: every field of the result except the timestamp is a pure
deterministic function of the input triple — two runs with different
clock values agree on every other field. -/
theorem claim6_determinism (t1 t2 : Nat) (parsed : Except String GoNode)
    (code codeType filePath : String) :
    (AnalyzeCode t1 parsed code codeType filePath).SecurityIssues
        = (AnalyzeCode t2 parsed code codeType filePath).SecurityIssues
  ∧ (AnalyzeCode t1 parsed code codeType filePath).PerformanceHints
        = (AnalyzeCode t2 parsed code codeType filePath).PerformanceHints
  ∧ (AnalyzeCode t1 parsed code codeType filePath).BestPractices
        = (AnalyzeCode t2 parsed code codeType filePath).BestPractices
  ∧ (AnalyzeCode t1 parsed code codeType filePath).AIRecommendations
        = (AnalyzeCode t2 parsed code codeType filePath).AIRecommendations
  ∧ (AnalyzeCode t1 parsed code codeType filePath).CodeComplexity
        = (AnalyzeCode t2 parsed code codeType filePath).CodeComplexity
  ∧ (AnalyzeCode t1 parsed code codeType filePath).PerformanceScore
        = (AnalyzeCode t2 parsed code codeType filePath).PerformanceScore
  ∧ (AnalyzeCode t1 parsed code codeType filePath).PerformanceGrade
        = (AnalyzeCode t2 parsed code codeType filePath).PerformanceGrade
  ∧ (AnalyzeCode t1 parsed code codeType filePath).FilePath
        = (AnalyzeCode t2 parsed code codeType filePath).FilePath := by
  cases parsed <;> exact ⟨rfl, rfl, rfl, rfl, rfl, rfl, rfl, rfl⟩

/-- Claim C7: every counted loop and every range loop whose subtree
contains a data-access call (a call whose selector name is in the
dbMethods catalogue) contributes a critical finding carrying the line
of the loop, with distinct issue names per loop kind; the concrete file
whose body is a range loop around db.Find gets the finding named
N+1 Query in Range Loop and a score of at most 75. -/
theorem claim7_n1_detection (t : Nat) (tree : GoNode) (code codeType filePath : String) :
    (∀ n : GoNode, SubNode n tree → n.kind = NodeKind.forStmt →
        (∃ m, SubNode m n ∧ isDBCall m = true) →
        forN1Hint n.line ∈ (AnalyzeCode t (Except.ok tree) code codeType filePath).PerformanceHints
          ∧ (forN1Hint n.line).Issue = "Potential N+1 Query Pattern"
          ∧ (forN1Hint n.line).Severity = "critical"
          ∧ (forN1Hint n.line).LineNumber = n.line)
  ∧ (∀ n : GoNode, SubNode n tree → n.kind = NodeKind.rangeStmt →
        (∃ m, SubNode m n ∧ isDBCall m = true) →
        rangeN1Hint n.line ∈ (AnalyzeCode t (Except.ok tree) code codeType filePath).PerformanceHints
          ∧ (rangeN1Hint n.line).Issue = "N+1 Query in Range Loop"
          ∧ (rangeN1Hint n.line).Severity = "critical"
          ∧ (rangeN1Hint n.line).LineNumber = n.line)
  ∧ (∀ l : Nat, (forN1Hint l).Issue ≠ (rangeN1Hint l).Issue)
  ∧ rangeN1Hint 4 ∈ (AnalyzeCode t (Except.ok rangeExampleTree) rangeExampleCode codeType filePath).PerformanceHints
  ∧ (AnalyzeCode t (Except.ok rangeExampleTree) rangeExampleCode codeType filePath).PerformanceScore ≤ 75 := by
  refine ⟨?_, ?_, ?_, ?_, ?_⟩
  · intro n hsub hk hdb
    have hdbB : hasDBCall n = true := (hasDBCall_iff n).mpr hdb
    have h1 := forN1Hint_mem hsub hk hdbB
    refine ⟨?_, rfl, rfl, rfl⟩
    show forN1Hint n.line ∈ detectPerformanceIssues tree code
    unfold detectPerformanceIssues detectN1QueryPatterns
    simp only [List.mem_append]
    tauto
  · intro n hsub hk hdb
    have hdbB : hasDBCall n = true := (hasDBCall_iff n).mpr hdb
    have h1 := rangeN1Hint_mem hsub hk hdbB
    refine ⟨?_, rfl, rfl, rfl⟩
    show rangeN1Hint n.line ∈ detectPerformanceIssues tree code
    unfold detectPerformanceIssues detectN1QueryPatterns
    simp only [List.mem_append]
    tauto
  · intro l
    show "Potential N+1 Query Pattern" ≠ "N+1 Query in Range Loop"
    decide
  · have e : (AnalyzeCode t (Except.ok rangeExampleTree) rangeExampleCode codeType filePath).PerformanceHints
        = [rangeN1Hint 4] := rfl
    rw [e]
    exact List.mem_singleton_self _
  · exact le_of_eq rfl

/-- Witness for claim C7 at the concrete range-loop file, discharging
the subtree and data-access-call hypotheses explicitly. -/
theorem claim7_n1_detection_witness :
    rangeN1Hint 4 ∈ (AnalyzeCode 0 (Except.ok rangeExampleTree) rangeExampleCode "go" "example.go").PerformanceHints
  ∧ (rangeN1Hint 4).Severity = "critical" := by
  have H := claim7_n1_detection 0 rangeExampleTree rangeExampleCode "go" "example.go"
  have hsubLoop : SubNode rangeExampleLoop rangeExampleTree :=
    SubNode.child (SubNode.child (SubNode.refl _) (List.Mem.head _)) (List.Mem.head _)
  have hdbm : ∃ m, SubNode m rangeExampleLoop ∧ isDBCall m = true := by
    refine ⟨rangeExampleCall, ?_, by decide⟩
    refine SubNode.child ?_ (List.Mem.tail _ (List.Mem.tail _ (List.Mem.head _)))
    refine SubNode.child ?_ (List.Mem.head _)
    exact SubNode.child (SubNode.refl _) (List.Mem.head _)
  have h := H.2.1 rangeExampleLoop hsubLoop rfl hdbm
  exact ⟨h.1, h.2.2.1⟩

/-- Claim C8: for every successfully parsed input, a security finding of
category sql_injection_risk and severity high is emitted exactly when
the text contains one of SELECT, INSERT, UPDATE, DELETE and contains
neither Prepare nor the question-mark placeholder. -/
theorem claim8_sql_injection (t : Nat) (tree : GoNode) (code codeType filePath : String) :
    (∃ i ∈ (AnalyzeCode t (Except.ok tree) code codeType filePath).SecurityIssues,
        i.Type_ = "sql_injection_risk" ∧ i.Severity = "high")
  ↔ ((strContains code "SELECT" = true ∨ strContains code "INSERT" = true ∨
      strContains code "UPDATE" = true ∨ strContains code "DELETE" = true)
      ∧ strContains code "Prepare" = false ∧ strContains code "?" = false) := by
  have e : (AnalyzeCode t (Except.ok tree) code codeType filePath).SecurityIssues
      = detectSecurityIssues tree code := rfl
  rw [e]
  unfold detectSecurityIssues
  constructor
  · rintro ⟨i, hmem, hty, hsev⟩
    simp only [List.mem_append, mem_emitIf] at hmem
    rcases hmem with ((⟨hc, rfl⟩ | ⟨hc, rfl⟩) | ⟨hc, rfl⟩) | ⟨hc, rfl⟩
    · exact absurd hty (by decide)
    · exact absurd hty (by decide)
    · exact absurd hty (by decide)
    · simp only [Bool.and_eq_true, Bool.or_eq_true, Bool.not_eq_true'] at hc
      tauto
  · rintro ⟨hdml, hprep, hq⟩
    refine ⟨sqlInjectionIssue, ?_, rfl, rfl⟩
    refine List.mem_append_right _ ?_
    rw [mem_emitIf]
    refine ⟨?_, rfl⟩
    simp only [Bool.and_eq_true, Bool.or_eq_true, Bool.not_eq_true']
    tauto

/-- Claim C9: the dialect hint is accepted but unused — for any two
hint strings the results are fully identical (in the model the
timestamp is an explicit parameter, held fixed here). -/
theorem claim9_dialect_hint_unused (t : Nat) (parsed : Except String GoNode)
    (code hint1 hint2 filePath : String) :
    AnalyzeCode t parsed code hint1 filePath = AnalyzeCode t parsed code hint2 filePath := by
  cases parsed <;> rfl

/-- Claim C10: on every successfully parsed input the advisory list is
non-empty because the Error Handling entry is appended unconditionally;
the advisory list is empty exactly on the parse-failure path. -/
theorem claim10_error_handling_advisory (t : Nat) (tree : GoNode)
    (errMsg code codeType filePath : String) :
    errorHandlingPractice ∈ (AnalyzeCode t (Except.ok tree) code codeType filePath).BestPractices
  ∧ (AnalyzeCode t (Except.ok tree) code codeType filePath).BestPractices ≠ []
  ∧ (AnalyzeCode t (Except.error errMsg) code codeType filePath).BestPractices = [] := by
  refine ⟨?_, ?_, rfl⟩
  · show errorHandlingPractice ∈ suggestBestPractices tree code
    unfold suggestBestPractices
    exact List.mem_append_left _ (List.mem_append_left _
      (List.mem_append_left _ (List.mem_singleton_self _)))
  · show suggestBestPractices tree code ≠ []
    unfold suggestBestPractices
    simp
